import Mathlib

/-!
Verification of the database seeding script (scripts/seed_database.py).

The script has three functions, embedded below:
  * wait_for_mongodb : bounded retry loop probing the service, sleeping a
    fixed delay between failed attempts, raising after the last attempt.
  * load_dataset : ordered fallback chain of three parse strategies
    (openpyxl spreadsheet, xlrd spreadsheet, CSV), then removal of the
    placeholder index column "Unnamed: 0" when present.
  * main : reads MONGO_URI and DATASET_PATH from the environment with fixed
    defaults, waits for the service, derives the database name from the
    URI's trailing path segment, guards on the reports collection being
    empty, loads the dataset and bulk-inserts its rows as documents.

External effects (the probe, the three parsers, the environment and the
document store) are passed in as explicit parameters, so every function is
a pure Lean function of those parameters.
-/

namespace SeedDatabase

/-- Result of the bounded retry loop in wait_for_mongodb.  `connected p s`
records a successful return of the client handle after `p` probe calls and
`s` sleeps; `raised p s e` records the final raise whose cause is the last
probe's error `e`; `returnedNone p s` records falling off the end of the
for-loop and returning None (reachable only with zero retries). -/
inductive WaitResult (ε : Type) where
  | connected (probes : Nat) (sleeps : Nat)
  | raised (probes : Nat) (sleeps : Nat) (cause : ε)
  | returnedNone (probes : Nat) (sleeps : Nat)
deriving DecidableEq, Repr

/-- The for-loop of wait_for_mongodb: `remaining` iterations are left and
`i` is the current 0-based attempt index (`probe i = none` means the
liveness probe of attempt `i` succeeds, `some e` that it raises `e`).
A failed attempt sleeps and continues when `i < max_retries - 1`
(that is, when further iterations remain) and otherwise raises. -/
def waitLoop {ε : Type} (probe : Nat → Option ε) : Nat → Nat → WaitResult ε
  | 0, i => .returnedNone i i
  | remaining + 1, i =>
    match probe i with
    | none => .connected (i + 1) i
    | some e =>
      if remaining = 0 then .raised (i + 1) i e
      else waitLoop probe remaining (i + 1)

/-- wait_for_mongodb(uri, max_retries, delay): probe up to max_retries
times, sleeping between failed attempts; return the client on the first
success, raise (wrapping the last probe error) when the final attempt
fails, and return None when the loop body never runs. -/
def wait_for_mongodb {ε : Type} (probe : Nat → Option ε) (max_retries : Nat) : WaitResult ε :=
  waitLoop probe max_retries 0

/-- A parsed tabular record set: an ordered column index and the rows of
values (pandas DataFrame as produced by read_excel / read_csv). -/
structure DataFrame (V : Type) where
  columns : List String
  rows : List (List V)
deriving DecidableEq, Repr

/-- df.drop(name, axis=1): remove the column labelled `name` from the
column index and from every row. -/
def DataFrame.drop {V : Type} (df : DataFrame V) (name : String) : DataFrame V :=
  { columns := df.columns.filter (fun c => c != name)
    rows := df.rows.map (fun r =>
      ((df.columns.zip r).filter (fun p => p.1 != name)).map Prod.snd) }

/-- df.to_dict('records'): one column-name-to-value mapping per row. -/
def DataFrame.to_dict_records {V : Type} (df : DataFrame V) : List (List (String × V)) :=
  df.rows.map (fun r => df.columns.zip r)

/-- The three parse strategies available to load_dataset, as functions of
the file path; `.error e` models the parser raising exception `e`. -/
structure ParseEnv (ε V : Type) where
  read_excel_openpyxl : String → Except ε (DataFrame V)
  read_excel_xlrd : String → Except ε (DataFrame V)
  read_csv : String → Except ε (DataFrame V)

/-- The try/except fallback chain of load_dataset: openpyxl first, xlrd on
its failure, CSV on the failure of both; only the CSV stage's error
escapes. -/
def parse_attempts {ε V : Type} (env : ParseEnv ε V) (file_path : String) :
    Except ε (DataFrame V) :=
  match env.read_excel_openpyxl file_path with
  | .ok df => .ok df
  | .error _ =>
    match env.read_excel_xlrd file_path with
    | .ok df => .ok df
    | .error _ => env.read_csv file_path

/-- The cleanup step of load_dataset: drop the placeholder index column
"Unnamed: 0" if it exists, otherwise leave the frame unchanged. -/
def clean_frame {V : Type} (df : DataFrame V) : DataFrame V :=
  if "Unnamed: 0" ∈ df.columns then df.drop "Unnamed: 0" else df

/-- load_dataset(file_path): run the fallback chain, then the cleanup, and
return the cleaned record set (or propagate the last stage's error). -/
def load_dataset {ε V : Type} (env : ParseEnv ε V) (file_path : String) :
    Except ε (DataFrame V) :=
  match parse_attempts env file_path with
  | .ok df => .ok (clean_frame df)
  | .error e => .error e

/-- Python str.split(sep) on a list of characters: split at every
occurrence of `sep`, keeping empty groups; the result is never empty. -/
def splitChars (sep : Char) : List Char → List (List Char)
  | [] => [[]]
  | c :: rest =>
    let r := splitChars sep rest
    if c = sep then [] :: r
    else
      match r with
      | [] => [[c]]
      | g :: gs => (c :: g) :: gs

/-- Python s.split(sep) for a one-character separator. -/
def pySplit (s : String) (sep : Char) : List String :=
  (splitChars sep s.data).map (fun cs => { data := cs })

/-- Default for the MONGO_URI environment variable. -/
def DEFAULT_MONGO_URI : String := "mongodb://mongodb:27017/german_credit"

/-- Default for the DATASET_PATH environment variable. -/
def DEFAULT_DATASET_PATH : String := "/app/german_credit_data.xls"

/-- The document store visible through the driver: database name and
collection name to the ordered list of documents, each document a mapping
from field name to value. -/
abbrev Store (V : Type) := String → String → List (List (String × V))

/-- The external world main runs against: the process environment, the
per-attempt liveness probe for a given connection URI, the three file
parsers, and the current contents of the document store. -/
structure World (ε V : Type) where
  environ : String → Option String
  probe : String → Nat → Option ε
  parse : ParseEnv ε V
  store : Store V

/-- How one run of main ends.  `clientNone` is the crash of subscripting
the None that wait_for_mongodb returns when it performs no attempt
(unreachable from main, which always passes 30 retries). -/
inductive MainOutcome (ε : Type) where
  | connectFailed (cause : ε)
  | clientNone
  | skipped (count : Nat)
  | loadFailed (cause : ε)
  | seeded (inserted : Nat)
deriving DecidableEq, Repr

/-- mongo_uri = os.environ.get("MONGO_URI", default). -/
def mongoUri {ε V : Type} (w : World ε V) : String :=
  (w.environ "MONGO_URI").getD DEFAULT_MONGO_URI

/-- dataset_path = os.environ.get("DATASET_PATH", default). -/
def datasetPath {ε V : Type} (w : World ε V) : String :=
  (w.environ "DATASET_PATH").getD DEFAULT_DATASET_PATH

/-- db_name = mongo_uri.split('/')[-1]: the URI's trailing path segment. -/
def dbName {ε V : Type} (w : World ε V) : String :=
  (pySplit (mongoUri w) '/').getLastD ""

/-- main(): wait for the service, pick db_name from the URI's trailing
path segment and the fixed collection 'reports', skip when the collection
already has documents, otherwise load the dataset and insert_many its
records; returns the outcome together with the final document store. -/
def main {ε V : Type} (w : World ε V) : MainOutcome ε × Store V :=
  match wait_for_mongodb (w.probe (mongoUri w)) 30 with
  | .raised _ _ e => (.connectFailed e, w.store)
  | .returnedNone _ _ => (.clientNone, w.store)
  | .connected _ _ =>
    let count := (w.store (dbName w) "reports").length
    if 0 < count then (.skipped count, w.store)
    else
      match load_dataset w.parse (datasetPath w) with
      | .error e => (.loadFailed e, w.store)
      | .ok df =>
        let records := df.to_dict_records
        (.seeded records.length,
          fun d c =>
            if d = dbName w ∧ c = "reports" then w.store d c ++ records
            else w.store d c)

/-- When every probed attempt from index `i` through the last one fails,
the loop raises after the final attempt, wrapping that attempt's error. -/
theorem waitLoop_all_fail {ε : Type} (probe : Nat → Option ε) (err : Nat → ε) :
    ∀ remaining, 0 < remaining → ∀ i,
      (∀ j, i ≤ j → j < i + remaining → probe j = some (err j)) →
      waitLoop probe remaining i =
        .raised (i + remaining) (i + remaining - 1) (err (i + remaining - 1)) := by
  intro remaining
  induction remaining with
  | zero => intro h; omega
  | succ r ih =>
    intro _ i hfail
    have hpi : probe i = some (err i) := hfail i (Nat.le_refl i) (by omega)
    cases r with
    | zero => simp [waitLoop, hpi]
    | succ t =>
      have hrec := ih (by omega) (i + 1)
        (fun j hj1 hj2 => hfail j (by omega) (by omega))
      have harith : i + 1 + (t + 1) = i + (t + 1 + 1) := by omega
      rw [harith] at hrec
      simpa [waitLoop, hpi] using hrec

/-- When the first `m` probed attempts starting at `i` fail and attempt
`i + m` succeeds (with `m` below the remaining budget), the loop returns
the connected handle right after that probe. -/
theorem waitLoop_first_success {ε : Type} (probe : Nat → Option ε) :
    ∀ m remaining i, m < remaining →
      (∀ j, j < m → probe (i + j) ≠ none) →
      probe (i + m) = none →
      waitLoop probe remaining i = .connected (i + m + 1) (i + m) := by
  intro m
  induction m with
  | zero =>
    intro remaining i hlt _ hsucc
    cases remaining with
    | zero => omega
    | succ r => simp only [Nat.add_zero] at hsucc; simp [waitLoop, hsucc]
  | succ m ih =>
    intro remaining i hlt hfail hsucc
    cases remaining with
    | zero => omega
    | succ r =>
      have hpi : probe i ≠ none := by
        have := hfail 0 (by omega)
        simpa using this
      obtain ⟨e, hpe⟩ : ∃ e, probe i = some e := by
        cases hp : probe i with
        | none => exact absurd hp hpi
        | some e => exact ⟨e, rfl⟩
      have hr0 : r ≠ 0 := by omega
      have hrec := ih r (i + 1) (by omega)
        (fun j hj => by
          have := hfail (j + 1) (by omega)
          simpa [Nat.add_assoc, Nat.add_comm 1 j] using this)
        (by simpa [Nat.add_assoc, Nat.add_comm 1 m] using hsucc)
      have harith : i + 1 + m = i + (m + 1) := by omega
      rw [harith] at hrec
      simpa [waitLoop, hpe, hr0] using hrec

/-- C5: if every one of the max probe attempts fails (max ≥ 1), the
connectivity waiter raises exactly one error, after exactly max − 1
sleeps and max probes, and the raised error wraps the last attempt's
underlying failure as its cause. -/
theorem wait_for_mongodb_exhaustion_raises {ε : Type}
    (probe : Nat → Option ε) (err : Nat → ε) (max : Nat)
    (hmax : 1 ≤ max)
    (hfail : ∀ i, i < max → probe i = some (err i)) :
    wait_for_mongodb probe max = .raised max (max - 1) (err (max - 1)) := by
  have := waitLoop_all_fail probe err max (by omega) 0
    (fun j _ hj => hfail j (by simpa using hj))
  simpa [wait_for_mongodb] using this

/-- Witness for C5: with a probe failing on all 3 of 3 attempts (error i
on attempt i), the waiter raises after 3 probes and 2 sleeps, wrapping the
last attempt's error 2. -/
theorem wait_for_mongodb_exhaustion_raises_witness :
    (1 ≤ 3 ∧ ∀ i : Nat, i < 3 → (fun j => some j) i = some (id i)) ∧
      wait_for_mongodb (fun j => some j) 3 = .raised 3 2 (id 2) :=
  ⟨⟨by decide, by decide⟩,
    wait_for_mongodb_exhaustion_raises (fun j => some j) id 3 (by decide) (by decide)⟩

/-- C6: if the probe first succeeds on attempt k (1-based, k ≤ max), the
waiter returns the connected handle immediately after that probe: exactly
k probes (none after attempt k) and exactly k − 1 sleeps. -/
theorem wait_for_mongodb_success_at_k {ε : Type}
    (probe : Nat → Option ε) (max k : Nat)
    (hk : 1 ≤ k) (hkmax : k ≤ max)
    (hfail : ∀ j, j < k - 1 → probe j ≠ none)
    (hsucc : probe (k - 1) = none) :
    wait_for_mongodb probe max = .connected k (k - 1) := by
  have := waitLoop_first_success probe (k - 1) max 0 (by omega)
    (fun j hj => by simpa using hfail j hj) (by simpa using hsucc)
  have harith : 0 + (k - 1) + 1 = k := by omega
  have harith2 : 0 + (k - 1) = k - 1 := by omega
  rw [harith, harith2] at this
  simpa [wait_for_mongodb] using this

/-- Witness for C6: a probe failing on attempts 0 and 1 and succeeding on
attempt 2 (so k = 3 ≤ max = 30) yields a connected handle after 3 probes
and 2 sleeps. -/
theorem wait_for_mongodb_success_at_k_witness :
    (1 ≤ 3 ∧ 3 ≤ 30 ∧
      (∀ j : Nat, j < 3 - 1 → (fun i => if i < 2 then some i else none) j ≠ none) ∧
      (fun i => if i < 2 then some i else none) (3 - 1) = none) ∧
      wait_for_mongodb (fun i => if i < 2 then some i else none) 30 =
        .connected 3 (3 - 1) :=
  ⟨⟨by decide, by decide, by decide, by decide⟩,
    wait_for_mongodb_success_at_k (fun i => if i < 2 then some i else none) 30 3
      (by decide) (by decide) (by decide) (by decide)⟩

/-- C9: called with a maximum attempt count of zero, the waiter performs
no probes and no sleeps and returns None: it neither returns a connected
handle nor raises a service-unavailable error. -/
theorem wait_for_mongodb_zero_retries_returns_none {ε : Type} (probe : Nat → Option ε) :
    wait_for_mongodb probe 0 = .returnedNone 0 0 ∧
      (∀ p s, wait_for_mongodb probe 0 ≠ .connected p s) ∧
      (∀ p s e, wait_for_mongodb probe 0 ≠ .raised p s e) := by
  refine ⟨rfl, ?_, ?_⟩
  · intro p s h
    simp [wait_for_mongodb, waitLoop] at h
  · intro p s e h
    simp [wait_for_mongodb, waitLoop] at h

/-- C4: the loader tries openpyxl, then xlrd, then CSV, in that fixed
order, and returns the (cleaned) result of the first strategy that
succeeds; each of the first two failures triggers the next stage, and only
the CSV stage's failure propagates out of the loader. -/
theorem load_dataset_fallback_order {ε V : Type} (env : ParseEnv ε V) (fp : String) :
    (∀ df, env.read_excel_openpyxl fp = .ok df →
      load_dataset env fp = .ok (clean_frame df)) ∧
    (∀ e1 df, env.read_excel_openpyxl fp = .error e1 →
      env.read_excel_xlrd fp = .ok df →
      load_dataset env fp = .ok (clean_frame df)) ∧
    (∀ e1 e2 df, env.read_excel_openpyxl fp = .error e1 →
      env.read_excel_xlrd fp = .error e2 →
      env.read_csv fp = .ok df →
      load_dataset env fp = .ok (clean_frame df)) ∧
    (∀ e1 e2 e3, env.read_excel_openpyxl fp = .error e1 →
      env.read_excel_xlrd fp = .error e2 →
      env.read_csv fp = .error e3 →
      load_dataset env fp = .error e3) := by
  refine ⟨?_, ?_, ?_, ?_⟩
  · intro df h1
    simp [load_dataset, parse_attempts, h1]
  · intro e1 df h1 h2
    simp [load_dataset, parse_attempts, h1, h2]
  · intro e1 e2 df h1 h2 h3
    simp [load_dataset, parse_attempts, h1, h2, h3]
  · intro e1 e2 e3 h1 h2 h3
    simp [load_dataset, parse_attempts, h1, h2, h3]

/-- C7: when the fallback chain parses the file to a record set, the
loader returns that record set with the placeholder index column
"Unnamed: 0" dropped when a column of that exact name is present, and
returns it completely unchanged when no such column is present. -/
theorem load_dataset_strips_placeholder {ε V : Type} (env : ParseEnv ε V)
    (fp : String) (df : DataFrame V)
    (h : parse_attempts env fp = .ok df) :
    ("Unnamed: 0" ∈ df.columns → load_dataset env fp = .ok (df.drop "Unnamed: 0")) ∧
      ("Unnamed: 0" ∉ df.columns → load_dataset env fp = .ok df) := by
  constructor
  · intro hm
    simp [load_dataset, h, clean_frame, hm]
  · intro hm
    simp [load_dataset, h, clean_frame, hm]

/-- Witness for C7: a parsed frame with columns ["Unnamed: 0", "age"] is
returned with that column dropped, leaving only the "age" column. -/
theorem load_dataset_strips_placeholder_witness :
    (parse_attempts
        (⟨fun _ => .ok ⟨["Unnamed: 0", "age"], [[0, 25], [1, 30]]⟩,
          fun _ => .error 7, fun _ => .error 8⟩ : ParseEnv Nat Nat) "f" =
        .ok ⟨["Unnamed: 0", "age"], [[0, 25], [1, 30]]⟩ ∧
      "Unnamed: 0" ∈ (⟨["Unnamed: 0", "age"], [[0, 25], [1, 30]]⟩ : DataFrame Nat).columns) ∧
      load_dataset
        (⟨fun _ => .ok ⟨["Unnamed: 0", "age"], [[0, 25], [1, 30]]⟩,
          fun _ => .error 7, fun _ => .error 8⟩ : ParseEnv Nat Nat) "f" =
        .ok ((⟨["Unnamed: 0", "age"], [[0, 25], [1, 30]]⟩ : DataFrame Nat).drop "Unnamed: 0") :=
  ⟨⟨rfl, by decide⟩,
    (load_dataset_strips_placeholder
      (⟨fun _ => .ok ⟨["Unnamed: 0", "age"], [[0, 25], [1, 30]]⟩,
        fun _ => .error 7, fun _ => .error 8⟩ : ParseEnv Nat Nat) "f"
      ⟨["Unnamed: 0", "age"], [[0, 25], [1, 30]]⟩ rfl).1 (by decide)⟩

/-- C10: the first two stages catch every exception whatsoever; whenever
all three stages fail, the error escaping the loader is the CSV stage's,
for arbitrary (format-related or not) errors of the first two stages,
whose causes are never propagated. -/
theorem load_dataset_error_is_csv_stage {ε V : Type} (env : ParseEnv ε V)
    (fp : String) (e1 e2 e3 : ε)
    (h1 : env.read_excel_openpyxl fp = .error e1)
    (h2 : env.read_excel_xlrd fp = .error e2)
    (h3 : env.read_csv fp = .error e3) :
    load_dataset env fp = .error e3 ∧
      ∀ e, load_dataset env fp = .error e → e = e3 := by
  have hload : load_dataset env fp = .error e3 := by
    simp [load_dataset, parse_attempts, h1, h2, h3]
  refine ⟨hload, fun e he => ?_⟩
  rw [hload] at he
  exact (Except.error.injEq .. ▸ he).symm

/-- Witness for C10: with stage errors 10, 11 and 12 on a missing file,
the loader's escaping error is 12, the CSV stage's. -/
theorem load_dataset_error_is_csv_stage_witness :
    ((⟨fun _ => .error 10, fun _ => .error 11, fun _ => .error 12⟩ :
        ParseEnv Nat Nat).read_excel_openpyxl "/nonexistent" = .error 10 ∧
      (⟨fun _ => .error 10, fun _ => .error 11, fun _ => .error 12⟩ :
        ParseEnv Nat Nat).read_excel_xlrd "/nonexistent" = .error 11 ∧
      (⟨fun _ => .error 10, fun _ => .error 11, fun _ => .error 12⟩ :
        ParseEnv Nat Nat).read_csv "/nonexistent" = .error 12) ∧
      load_dataset
        (⟨fun _ => .error 10, fun _ => .error 11, fun _ => .error 12⟩ :
          ParseEnv Nat Nat) "/nonexistent" = .error 12 :=
  ⟨⟨rfl, rfl, rfl⟩,
    (load_dataset_error_is_csv_stage
      (⟨fun _ => .error 10, fun _ => .error 11, fun _ => .error 12⟩ :
        ParseEnv Nat Nat) "/nonexistent" 10 11 12 rfl rfl rfl).1⟩

/-- A small concrete record set used by the orchestrator witnesses. -/
def exampleFrame : DataFrame Nat :=
  { columns := ["age", "credit"], rows := [[25, 1000], [30, 2000]] }

/-- A concrete world whose service answers the first probe, whose openpyxl
parser yields exampleFrame, and whose store is empty. -/
def exampleWorld : World Nat Nat :=
  { environ := fun _ => none
    probe := fun _ _ => none
    parse := ⟨fun _ => .ok exampleFrame, fun _ => .error 0, fun _ => .error 1⟩
    store := fun _ _ => [] }

/-- exampleWorld with one pre-existing document in every collection. -/
def seededWorld : World Nat Nat :=
  { exampleWorld with store := fun _ _ => [[("age", 99)]] }

/-- C1: when the service connects and the reports collection of the URI's
database is empty, main loads the dataset and performs the one bulk
insert: the outcome reports exactly as many inserted documents as the
loaded record set has rows, and the collection afterwards holds exactly
those rows, each row's column-to-value mapping carried over 1:1. -/
theorem main_seeds_empty_collection {ε V : Type} (w : World ε V) (p s : Nat)
    (hconn : wait_for_mongodb (w.probe (mongoUri w)) 30 = .connected p s)
    (df : DataFrame V)
    (hload : load_dataset w.parse (datasetPath w) = .ok df)
    (hempty : w.store (dbName w) "reports" = []) :
    (main w).1 = .seeded df.rows.length ∧
      (main w).2 (dbName w) "reports" = df.rows.map (fun r => df.columns.zip r) := by
  have h0 : ¬ 0 < (w.store (dbName w) "reports").length := by simp [hempty]
  constructor
  · simp [main, hconn, h0, hload, DataFrame.to_dict_records]
  · simp [main, hconn, h0, hload, DataFrame.to_dict_records, hempty]

/-- Witness for C1: running main in exampleWorld (empty store, reachable
service, two-row dataset) seeds both rows into german_credit.reports. -/
theorem main_seeds_empty_collection_witness :
    (wait_for_mongodb (exampleWorld.probe (mongoUri exampleWorld)) 30 = .connected 1 0 ∧
      load_dataset exampleWorld.parse (datasetPath exampleWorld) = .ok exampleFrame ∧
      exampleWorld.store (dbName exampleWorld) "reports" = []) ∧
      (main exampleWorld).1 = .seeded exampleFrame.rows.length ∧
      (main exampleWorld).2 (dbName exampleWorld) "reports" =
        exampleFrame.rows.map (fun r => exampleFrame.columns.zip r) :=
  ⟨⟨rfl, rfl, rfl⟩,
    main_seeds_empty_collection exampleWorld 1 0 rfl exampleFrame rfl rfl⟩

/-- C2: when the service connects and the reports collection of the URI's
database already holds at least one document, main performs zero inserts
and returns after logging the skip: the store is left unchanged, and the
dataset loader is never invoked (the run is independent of the parsers). -/
theorem main_skips_nonempty_collection {ε V : Type} (w : World ε V) (p s : Nat)
    (hconn : wait_for_mongodb (w.probe (mongoUri w)) 30 = .connected p s)
    (hne : 0 < (w.store (dbName w) "reports").length) :
    main w = (.skipped (w.store (dbName w) "reports").length, w.store) ∧
      ∀ pe : ParseEnv ε V, main { w with parse := pe } = main w := by
  have hmain : main w = (.skipped (w.store (dbName w) "reports").length, w.store) := by
    simp [main, hconn, hne]
  refine ⟨hmain, fun pe => ?_⟩
  have hconn' : wait_for_mongodb
      (({ w with parse := pe } : World ε V).probe (mongoUri { w with parse := pe })) 30 =
      .connected p s := hconn
  have hne' : 0 < (({ w with parse := pe } : World ε V).store
      (dbName { w with parse := pe }) "reports").length := hne
  have hmain' : main { w with parse := pe } =
      (.skipped ((({ w with parse := pe } : World ε V).store
        (dbName { w with parse := pe }) "reports").length),
        ({ w with parse := pe } : World ε V).store) := by
    simp [main, hconn', hne']
  rw [hmain, hmain']
  rfl

/-- Witness for C2: in seededWorld (one pre-existing document), main skips
with count 1, leaves the store untouched, and its run does not depend on
the parse environment. -/
theorem main_skips_nonempty_collection_witness :
    (wait_for_mongodb (seededWorld.probe (mongoUri seededWorld)) 30 = .connected 1 0 ∧
      0 < (seededWorld.store (dbName seededWorld) "reports").length) ∧
      main seededWorld =
        (.skipped (seededWorld.store (dbName seededWorld) "reports").length,
          seededWorld.store) ∧
      ∀ pe : ParseEnv Nat Nat, main { seededWorld with parse := pe } = main seededWorld :=
  ⟨⟨rfl, by decide⟩,
    main_skips_nonempty_collection seededWorld 1 0 rfl (by decide)⟩

/-- C3: the collection main queries and inserts into is the reports
collection of the database named by the URI's trailing path segment (the
substring after the last slash): the skip count is that collection's
document count, and no other (database, collection) pair of the store is
ever changed by a run. -/
theorem main_targets_trailing_segment {ε V : Type} (w : World ε V) :
    (∀ n, (main w).1 = .skipped n →
      n = (w.store ((pySplit (mongoUri w) '/').getLastD "") "reports").length) ∧
      (∀ d c, ¬(d = (pySplit (mongoUri w) '/').getLastD "" ∧ c = "reports") →
        (main w).2 d c = w.store d c) := by
  have hdb : (pySplit (mongoUri w) '/').getLastD "" = dbName w := rfl
  rw [hdb]
  constructor
  · intro n hn
    unfold main at hn
    split at hn
    · simp at hn
    · simp at hn
    · split at hn <;> by_cases hc : 0 < (w.store (dbName w) "reports").length <;>
        simp [hc] at hn <;> omega
  · intro d c hdc
    unfold main
    split
    · rfl
    · rfl
    · split <;> by_cases hc : 0 < (w.store (dbName w) "reports").length <;>
        simp [hc, hdc]

/-- C8: main's configuration is exactly the two environment variables
MONGO_URI and DATASET_PATH — two worlds whose environments agree on those
two keys run identically — and an unset variable falls back to its fixed
default: the default URI is the local-service connection string whose
trailing path segment is the fixed database name german_credit, and the
default dataset path is a fixed local path with the .xls spreadsheet
extension. -/
theorem main_env_vars_and_defaults {ε V : Type} (w : World ε V)
    (e2 : String → Option String)
    (hU : w.environ "MONGO_URI" = e2 "MONGO_URI")
    (hD : w.environ "DATASET_PATH" = e2 "DATASET_PATH") :
    main { w with environ := e2 } = main w ∧
      (w.environ "MONGO_URI" = none → mongoUri w = DEFAULT_MONGO_URI) ∧
      (w.environ "DATASET_PATH" = none → datasetPath w = DEFAULT_DATASET_PATH) ∧
      DEFAULT_MONGO_URI = "mongodb://mongodb:27017/german_credit" ∧
      (pySplit DEFAULT_MONGO_URI '/').getLastD "" = "german_credit" ∧
      DEFAULT_DATASET_PATH = "/app/german_credit_data" ++ ".xls" := by
  have h1 : mongoUri { w with environ := e2 } = mongoUri w := by
    simp [mongoUri, hU]
  have h2 : datasetPath { w with environ := e2 } = datasetPath w := by
    simp [datasetPath, hD]
  have h3 : dbName { w with environ := e2 } = dbName w := by
    simp [dbName, h1]
  refine ⟨?_, ?_, ?_, rfl, by decide, by decide⟩
  · unfold main
    rw [h1, h2, h3]
  · intro h
    simp [mongoUri, h]
  · intro h
    simp [datasetPath, h]

/-- Witness for C8: exampleWorld's empty environment agrees on MONGO_URI
and DATASET_PATH with an environment carrying only an unrelated variable,
and main runs identically under both; the defaults hold concretely. -/
theorem main_env_vars_and_defaults_witness :
    (exampleWorld.environ "MONGO_URI" =
        (fun k => if k = "OTHER_VAR" then some "x" else none) "MONGO_URI" ∧
      exampleWorld.environ "DATASET_PATH" =
        (fun k => if k = "OTHER_VAR" then some "x" else none) "DATASET_PATH") ∧
      main { exampleWorld with
        environ := fun k => if k = "OTHER_VAR" then some "x" else none } =
          main exampleWorld ∧
      (exampleWorld.environ "MONGO_URI" = none →
        mongoUri exampleWorld = DEFAULT_MONGO_URI) ∧
      (exampleWorld.environ "DATASET_PATH" = none →
        datasetPath exampleWorld = DEFAULT_DATASET_PATH) ∧
      DEFAULT_MONGO_URI = "mongodb://mongodb:27017/german_credit" ∧
      (pySplit DEFAULT_MONGO_URI '/').getLastD "" = "german_credit" ∧
      DEFAULT_DATASET_PATH = "/app/german_credit_data" ++ ".xls" :=
  ⟨⟨by decide, by decide⟩,
    main_env_vars_and_defaults exampleWorld
      (fun k => if k = "OTHER_VAR" then some "x" else none) (by decide) (by decide)⟩

end SeedDatabase
